import Mathlib

/-
Verification of the ezomero import orchestration core (`ezomero/_importer.py`).

The Python module is shallowly embedded: each remote call made through the
OMERO gateway (container creation, orphan query, linking, annotation
persistence) is recorded as an event in a trace, and server-assigned fresh
identifiers are modelled by a counter threaded through every operation.
Stateful methods of the `Importer` class become pure functions from the
importer record and the server counter to a result, the updated counter and
the emitted trace.
-/

namespace Ezomero

/-- Python values that can appear as keys or values of the annotation
dictionary handed to the batch-annotation routine: strings, integers, or
(top-level) lists of values. -/
inductive PyVal where
  | vStr (s : String)
  | vInt (n : Int)
  | vList (xs : List PyVal)

mutual

/-- Python `str()` coercion on embedded values. -/
def pyStr : PyVal → String
  | .vStr s => s
  | .vInt n => toString n
  | .vList xs => "[" ++ pyStrList xs ++ "]"

/-- Comma-separated rendering of a list of values, used by `pyStr`. -/
def pyStrList : List PyVal → String
  | [] => ""
  | [x] => pyStr x
  | x :: y :: xs => pyStr x ++ ", " ++ pyStrList (y :: xs)

end

/-- A Project/Dataset/Screen reference: either a human name (`str` in the
source, create-on-demand) or an existing numeric identifier (`int`). -/
inductive Ref where
  | name (s : String)
  | rid (n : Int)
  deriving DecidableEq, Repr

/-- Python truthiness of an optional reference (`None`, the empty string and
the integer `0` are falsy, everything else truthy). This is the test the
source performs with `if self.project:` and friends. -/
def truthyRef : Option Ref → Bool
  | none => false
  | some (.name s) => s != ""
  | some (.rid n) => n != 0

/-- Python truthiness of an optional integer (`None` and `0` are falsy),
the test performed by `if project_id:` and `if dataset_id:`. -/
def pyTruthyOptInt : Option Int → Bool
  | none => false
  | some n => n != 0

/-- The remote server, reduced to the next identifier it will assign to a
freshly created object (container or annotation record). -/
structure Srv where
  nextId : Int
  deriving DecidableEq, Repr

/-- One event of an orchestration run: a remote call made through the
gateway, or a logged warning/error message. -/
inductive Op where
  | createProject (pname : String)
  | createDataset (dname : String) (parent : Option Int)
  | createScreen (sname : String)
  | queryOrphans
  | linkImage (imageId datasetId : Int)
  | linkPlate (plateId screenId : Int)
  | saveAnn (ns : String) (pairs : List (String × String))
  | linkAnn (otype : String) (annId objId : Int)
  | submitImport
  | warn (msg : String)
  deriving DecidableEq, Repr

/-- Whether an event is a remote call (everything except local logging). -/
def Op.isRemote : Op → Bool
  | .warn _ => false
  | _ => true

/-- Recognizer for the orphan-set query event. -/
def isQuery : Op → Bool
  | .queryOrphans => true
  | _ => false

/-- Recognizer for annotation-record persistence events. -/
def isSaveAnn : Op → Bool
  | .saveAnn _ _ => true
  | _ => false

/-- Recognizer for Project-creation events. -/
def isCreateProject : Op → Bool
  | .createProject _ => true
  | _ => false

/-- Recognizer for Dataset-creation events. -/
def isCreateDataset : Op → Bool
  | .createDataset _ _ => true
  | _ => false

/-- Recognizer for Screen-creation events. -/
def isCreateScreen : Op → Bool
  | .createScreen _ => true
  | _ => false

/-- Recognizer for image-to-dataset link events. -/
def isLinkImage : Op → Bool
  | .linkImage _ _ => true
  | _ => false

/-- Embedding of `set_or_create_project`: a string creates a new Project
(returning the fresh server id), an integer is returned unchanged. -/
def set_or_create_project : Ref → Srv → Int × Srv × List Op
  | .name s, st => (st.nextId, ⟨st.nextId + 1⟩, [Op.createProject s])
  | .rid n, st => (n, st, [])

/-- Embedding of `set_or_create_dataset`: a string creates a new Dataset —
parented to `project_id` exactly when that id is truthy (`if project_id:` in
the source) — while an integer is returned unchanged. -/
def set_or_create_dataset (project_id : Option Int) : Ref → Srv → Int × Srv × List Op
  | .name s, st =>
    (st.nextId, ⟨st.nextId + 1⟩,
      [Op.createDataset s (if pyTruthyOptInt project_id then project_id else none)])
  | .rid n, st => (n, st, [])

/-- Embedding of `set_or_create_screen`: a string creates a new Screen
(returning the fresh server id), an integer is returned unchanged. -/
def set_or_create_screen : Ref → Srv → Int × Srv × List Op
  | .name s, st => (st.nextId, ⟨st.nextId + 1⟩, [Op.createScreen s])
  | .rid n, st => (n, st, [])

/-- Python exceptions raised by the module. -/
inductive PyErr where
  | typeError (msg : String)
  | valueError (msg : String)
  deriving DecidableEq, Repr

/-- The `object_ids` argument of the batch-annotation routine: a bare
integer, a list of integers, or a value of any other runtime type. -/
inductive ObjIdsArg where
  | ofInt (n : Int)
  | ofList (xs : List Int)
  | otherType
  deriving DecidableEq, Repr

/-- The `kv_dict` argument: a Python dict (an insertion-ordered association
list of key/value pairs) or a value of any other runtime type. -/
inductive KvArg where
  | ofDict (entries : List (PyVal × PyVal))
  | otherType

/-- The flattening loop of `multi_post_map_annotation` over `kv_dict.items()`:
a non-list value yields the single pair `(str(k), str(v))`; a list value
yields one pair per element, in element order, all with key `str(k)`. -/
def flatten_kv : List (PyVal × PyVal) → List (String × String)
  | [] => []
  | (k, v) :: rest =>
    (match v with
     | .vList xs => xs.map (fun value => (pyStr k, pyStr value))
     | .vStr s => [(pyStr k, pyStr (.vStr s))]
     | .vInt n => [(pyStr k, pyStr (.vInt n))]) ++ flatten_kv rest

/-- The part of `multi_post_map_annotation` after the bare-integer
normalization: empty-batch and dict checks, flattening, one save, then one
link per target object. -/
def multiPostChecked (otype : String) (ids : List Int) (kv : KvArg) (ns : String)
    (st : Srv) : Except PyErr Int × Srv × List Op :=
  if ids.length = 0 then
    (.error (.valueError "object_ids must contain one or more items"), st, [])
  else
    match kv with
    | .otherType => (.error (.typeError "Annotation must be of type dict"), st, [])
    | .ofDict entries =>
      (.ok st.nextId, ⟨st.nextId + 1⟩,
        Op.saveAnn ns (flatten_kv entries) :: ids.map (fun o => Op.linkAnn otype st.nextId o))

/-- Embedding of `multi_post_map_annotation`: rejects an `object_ids` that is
neither list nor integer, normalizes a bare integer to a singleton list, and
delegates to `multiPostChecked`. -/
def multi_post_map_ann (otype : String) (object_ids : ObjIdsArg) (kv : KvArg)
    (ns : String) (st : Srv) : Except PyErr Int × Srv × List Op :=
  match object_ids with
  | .otherType => (.error (.typeError "object_ids must be list or integer"), st, [])
  | .ofInt n => multiPostChecked otype [n] kv ns st
  | .ofList xs => multiPostChecked otype xs kv ns st

/-- The state of an `Importer` instance relevant to the orchestration core. -/
structure Importer where
  project : Option Ref
  dataset : Option Ref
  screen : Option Ref
  ann : Option (List (PyVal × PyVal))
  ns : Option String
  image_ids : Option (List Int)
  plate_ids : Option (List Int)

/-- Python truthiness of the optional annotation dict (an empty dict is
falsy). -/
def truthyAnn : Option (List (PyVal × PyVal)) → Bool
  | none => false
  | some entries => !entries.isEmpty

/-- Python truthiness of the optional namespace string. -/
def truthyNs : Option String → Bool
  | none => false
  | some s => s != ""

/-- Python truthiness of an optional id list (an empty list is falsy). -/
def truthyIds : Option (List Int) → Bool
  | none => false
  | some xs => !xs.isEmpty

/-- Embedding of `Importer.__init__`: rejects a truthy project with a falsy
dataset before anything else happens. -/
def importerInit (project dataset screen : Option Ref)
    (ann : Option (List (PyVal × PyVal))) (ns : Option String) :
    Except PyErr Importer :=
  if truthyRef project && !truthyRef dataset then
    .error (.valueError "Cannot define project but no dataset!")
  else
    .ok { project := project, dataset := dataset, screen := screen,
          ann := ann, ns := ns, image_ids := none, plate_ids := none }

/-- The `if self.project:` resolution step of `organize_images`. -/
def resolveProject : Option Ref → Srv → Option Int × Srv × List Op
  | none, st => (none, st, [])
  | some p, st =>
    if truthyRef (some p) then
      ((set_or_create_project p st).1, (set_or_create_project p st).2.1,
       (set_or_create_project p st).2.2)
    else (none, st, [])

/-- The `if self.dataset:` resolution step of `organize_images`. -/
def resolveDataset (project_id : Option Int) : Option Ref → Srv → Option Int × Srv × List Op
  | none, st => (none, st, [])
  | some d, st =>
    if truthyRef (some d) then
      ((set_or_create_dataset project_id d st).1,
       (set_or_create_dataset project_id d st).2.1,
       (set_or_create_dataset project_id d st).2.2)
    else (none, st, [])

/-- The per-image loop of `organize_images`: a non-orphan id is logged and
skipped; an orphan id is linked to the dataset exactly when `dataset_id` is
truthy. -/
def organize_images_loop (ids orphans : List Int) (dataset_id : Option Int) : List Op :=
  match ids with
  | [] => []
  | i :: rest =>
    (if i ∈ orphans then
       (if pyTruthyOptInt dataset_id then
          [Op.linkImage i (dataset_id.getD 0)]
        else [])
     else [Op.warn ("Image:" ++ toString i ++ " not an orphan")])
    ++ organize_images_loop rest orphans dataset_id

/-- Embedding of `Importer.organize_images`: short-circuits on a falsy id
list, otherwise queries the orphan set once, resolves project then dataset,
and runs the per-image loop, returning `true`. -/
def organize_images (imp : Importer) (orphans : List Int) (st : Srv) :
    Bool × Srv × List Op :=
  if !truthyIds imp.image_ids then
    (false, st, [Op.warn "No image ids to organize"])
  else
    (true, (resolveDataset (resolveProject imp.project st).1 imp.dataset
              (resolveProject imp.project st).2.1).2.1,
     Op.queryOrphans ::
       ((resolveProject imp.project st).2.2 ++
        ((resolveDataset (resolveProject imp.project st).1 imp.dataset
            (resolveProject imp.project st).2.1).2.2 ++
         organize_images_loop (imp.image_ids.getD []) orphans
           (resolveDataset (resolveProject imp.project st).1 imp.dataset
              (resolveProject imp.project st).2.1).1)))

/-- The per-plate loop of `organize_plates`: for each plate, when the screen
reference is truthy the screen is resolved afresh and the plate linked to the
id so obtained. -/
def organize_plates_loop : List Int → Option Ref → Srv → Srv × List Op
  | [], _, st => (st, [])
  | p :: rest, scr, st =>
    if truthyRef scr then
      match scr with
      | some s =>
        ((organize_plates_loop rest scr (set_or_create_screen s st).2.1).1,
         (set_or_create_screen s st).2.2 ++
           (Op.linkPlate p (set_or_create_screen s st).1 ::
            (organize_plates_loop rest scr (set_or_create_screen s st).2.1).2))
      | none => organize_plates_loop rest scr st
    else organize_plates_loop rest scr st

/-- Embedding of `Importer.organize_plates`: a falsy plate-id list returns
`false` with no calls; otherwise the per-plate loop runs and the method
returns `true`. -/
def organize_plates (imp : Importer) (st : Srv) : Bool × Srv × List Op :=
  match imp.plate_ids with
  | some pls =>
    if pls.isEmpty then (false, st, [])
    else
      (true, (organize_plates_loop pls imp.screen st).1,
       (organize_plates_loop pls imp.screen st).2)
  | none => (false, st, [])

/-- Embedding of `Importer.annotate_images`: skips (with a warning) unless
both the annotation dict and the namespace are truthy, then annotates the
image ids when they are a truthy list. -/
def annotate_images (imp : Importer) (st : Srv) :
    Except PyErr (Option Int) × Srv × List Op :=
  if !truthyAnn imp.ann || !truthyNs imp.ns then
    (.ok none, st, [Op.warn "Missing annotation or namespace, skipping annotations"])
  else
    match imp.image_ids with
    | some ids =>
      if ids.isEmpty then (.ok none, st, [])
      else
        ((multi_post_map_ann "Image" (.ofList ids) (.ofDict (imp.ann.getD []))
            (imp.ns.getD "") st).1.map some,
         (multi_post_map_ann "Image" (.ofList ids) (.ofDict (imp.ann.getD []))
            (imp.ns.getD "") st).2.1,
         (multi_post_map_ann "Image" (.ofList ids) (.ofDict (imp.ann.getD []))
            (imp.ns.getD "") st).2.2)
    | none => (.ok none, st, [])

/-- Embedding of `Importer.annotate_plates`: same structure as
`annotate_images`, over the plate ids. -/
def annotate_plates (imp : Importer) (st : Srv) :
    Except PyErr (Option Int) × Srv × List Op :=
  if !truthyAnn imp.ann || !truthyNs imp.ns then
    (.ok none, st, [Op.warn "Missing annotation or namespace, skipping annotations"])
  else
    match imp.plate_ids with
    | some ids =>
      if ids.isEmpty then (.ok none, st, [])
      else
        ((multi_post_map_ann "Plate" (.ofList ids) (.ofDict (imp.ann.getD []))
            (imp.ns.getD "") st).1.map some,
         (multi_post_map_ann "Plate" (.ofList ids) (.ofDict (imp.ann.getD []))
            (imp.ns.getD "") st).2.1,
         (multi_post_map_ann "Plate" (.ofList ids) (.ofDict (imp.ann.getD []))
            (imp.ns.getD "") st).2.2)
    | none => (.ok none, st, [])

/-- The parsed structured result document of a successful submission: the
image ids under the `Image` key and the plate ids under the `Plate` key. -/
structure ResultDoc where
  imageIds : List Int
  plateIds : List Int
  deriving DecidableEq, Repr

/-- Which of the two organize/annotate pipelines a run executed. -/
inductive Pipeline where
  | plates
  | images
  | noRun
  deriving DecidableEq, Repr

/-- Embedding of the top-level `ezimport` function: construct the importer
(which may raise), submit (the outcome is the optional result document),
then — mirroring `if imp_ctl.screen:` — run either the plate pipeline
(get plate ids, organize plates, annotate plates, return plate ids) or the
image pipeline (get image ids, organize images, annotate images, return
image ids). Returns the Python return value, the final server state, the
trace, and which pipeline ran. -/
def ezimport_run (project dataset screen : Option Ref)
    (ann : Option (List (PyVal × PyVal))) (ns : Option String)
    (doc : Option ResultDoc) (orphans : List Int) (st : Srv) :
    Except PyErr (Option (List Int)) × Srv × List Op × Pipeline :=
  match importerInit project dataset screen ann ns with
  | .error e => (.error e, st, [], Pipeline.noRun)
  | .ok imp0 =>
    match doc with
    | none => (.ok none, st, [Op.submitImport], Pipeline.noRun)
    | some d =>
      if truthyRef imp0.screen then
        (((annotate_plates { imp0 with plate_ids := some d.plateIds }
             (organize_plates { imp0 with plate_ids := some d.plateIds } st).2.1).1.map
            (fun _ => some d.plateIds)),
         (annotate_plates { imp0 with plate_ids := some d.plateIds }
            (organize_plates { imp0 with plate_ids := some d.plateIds } st).2.1).2.1,
         Op.submitImport ::
           ((organize_plates { imp0 with plate_ids := some d.plateIds } st).2.2 ++
            (annotate_plates { imp0 with plate_ids := some d.plateIds }
               (organize_plates { imp0 with plate_ids := some d.plateIds } st).2.1).2.2),
         Pipeline.plates)
      else
        (((annotate_images { imp0 with image_ids := some d.imageIds }
             (organize_images { imp0 with image_ids := some d.imageIds } orphans st).2.1).1.map
            (fun _ => some d.imageIds)),
         (annotate_images { imp0 with image_ids := some d.imageIds }
            (organize_images { imp0 with image_ids := some d.imageIds } orphans st).2.1).2.1,
         Op.submitImport ::
           ((organize_images { imp0 with image_ids := some d.imageIds } orphans st).2.2 ++
            (annotate_images { imp0 with image_ids := some d.imageIds }
               (organize_images { imp0 with image_ids := some d.imageIds } orphans st).2.1).2.2),
         Pipeline.images)

/-- Spec-side measure of a value: the length of a list value, `1` for a
scalar. -/
def valLen : PyVal → Nat
  | .vList xs => xs.length
  | _ => 1

/-- Spec-side view of a value as the sequence of its elements: a list value
is its own elements, a scalar is a singleton. -/
def valSeq : PyVal → List PyVal
  | .vList xs => xs
  | .vStr s => [.vStr s]
  | .vInt n => [.vInt n]

/-- Sum of the value lengths of a dict, scalars counting as `1`. -/
def kvTotalLen (entries : List (PyVal × PyVal)) : Nat :=
  (entries.map fun e => valLen e.2).sum

theorem not_mem_of_filter_nil {p : Op → Bool} {l : List Op} (h : l.filter p = [])
    {x : Op} (hx : p x = true) : x ∉ l := by
  intro hmem
  have hin : x ∈ l.filter p := List.mem_filter.mpr ⟨hmem, hx⟩
  simp [h] at hin

theorem pyTruthyOptInt_some {d : Option Int} (h : pyTruthyOptInt d = true) :
    d = some (d.getD 0) ∧ d.getD 0 ≠ 0 := by
  cases d with
  | none => simp [pyTruthyOptInt] at h
  | some n =>
    refine ⟨rfl, ?_⟩
    simpa [pyTruthyOptInt] using h

theorem imgloop_filter_nil (p : Op → Bool)
    (h1 : ∀ i e, p (Op.linkImage i e) = false)
    (h2 : ∀ m, p (Op.warn m) = false) :
    ∀ (ids orphans : List Int) (d : Option Int),
      (organize_images_loop ids orphans d).filter p = [] := by
  intro ids
  induction ids with
  | nil => intro orphans d; rfl
  | cons i rest ih =>
    intro orphans d
    simp only [organize_images_loop, List.filter_append, ih, List.append_nil]
    by_cases ho : i ∈ orphans
    · by_cases hd : pyTruthyOptInt d = true
      · simp [ho, hd, h1]
      · simp [ho, hd]
    · simp [ho, h2]

theorem imgloop_link_mem {i e : Int} :
    ∀ {ids orphans : List Int} {d : Option Int},
      Op.linkImage i e ∈ organize_images_loop ids orphans d →
      i ∈ ids ∧ i ∈ orphans ∧ d = some e ∧ e ≠ 0 := by
  intro ids
  induction ids with
  | nil => intro orphans d h; simp [organize_images_loop] at h
  | cons j rest ih =>
    intro orphans d h
    simp only [organize_images_loop, List.mem_append] at h
    rcases h with h | h
    · by_cases hj : j ∈ orphans
      · by_cases hd : pyTruthyOptInt d = true
        · simp [hj, hd] at h
          rcases pyTruthyOptInt_some hd with ⟨hds, hdn⟩
          rcases h with ⟨rfl, rfl⟩
          exact ⟨List.mem_cons_self _ _, hj, hds, hdn⟩
        · simp [hj, hd] at h
      · simp [hj] at h
    · rcases ih h with ⟨h1, h2, h3, h4⟩
      exact ⟨List.mem_cons_of_mem _ h1, h2, h3, h4⟩

theorem imgloop_link_of_orphan {ids orphans : List Int} {d : Int} (hd : d ≠ 0)
    {i : Int} (hi : i ∈ ids) (ho : i ∈ orphans) :
    Op.linkImage i d ∈ organize_images_loop ids orphans (some d) := by
  induction ids with
  | nil => simp at hi
  | cons j rest ih =>
    simp only [organize_images_loop, List.mem_append]
    rcases List.mem_cons.mp hi with rfl | hmem
    · left
      simp [ho, pyTruthyOptInt, hd]
    · right
      exact ih hmem

theorem imgloop_warn_of_nonorphan {ids orphans : List Int} {d : Option Int}
    {i : Int} (hi : i ∈ ids) (ho : i ∉ orphans) :
    Op.warn ("Image:" ++ toString i ++ " not an orphan") ∈
      organize_images_loop ids orphans d := by
  induction ids with
  | nil => simp at hi
  | cons j rest ih =>
    simp only [organize_images_loop, List.mem_append]
    rcases List.mem_cons.mp hi with rfl | hmem
    · left
      simp [ho]
    · right
      exact ih hmem

theorem resolveProject_trace (p : Option Ref) (st : Srv) :
    (resolveProject p st).2.2 = [] ∨
    ∃ s, (resolveProject p st).2.2 = [Op.createProject s] := by
  rcases p with _ | r
  · exact Or.inl rfl
  · rcases r with s | n
    · by_cases h : truthyRef (some (Ref.name s)) = true
      · exact Or.inr ⟨s, by simp [resolveProject, h, set_or_create_project]⟩
      · exact Or.inl (by simp [resolveProject, h])
    · by_cases h : truthyRef (some (Ref.rid n)) = true
      · exact Or.inl (by simp [resolveProject, h, set_or_create_project])
      · exact Or.inl (by simp [resolveProject, h])

theorem resolveDataset_trace (pid : Option Int) (p : Option Ref) (st : Srv) :
    (resolveDataset pid p st).2.2 = [] ∨
    ∃ s par, (resolveDataset pid p st).2.2 = [Op.createDataset s par] := by
  rcases p with _ | r
  · exact Or.inl rfl
  · rcases r with s | n
    · by_cases h : truthyRef (some (Ref.name s)) = true
      · refine Or.inr ⟨s, if pyTruthyOptInt pid then pid else none, ?_⟩
        simp [resolveDataset, h, set_or_create_dataset]
      · exact Or.inl (by simp [resolveDataset, h])
    · by_cases h : truthyRef (some (Ref.rid n)) = true
      · exact Or.inl (by simp [resolveDataset, h, set_or_create_dataset])
      · exact Or.inl (by simp [resolveDataset, h])

theorem resolveProject_filter_nil {q : Op → Bool}
    (h : ∀ s, q (Op.createProject s) = false) (p : Option Ref) (st : Srv) :
    ((resolveProject p st).2.2).filter q = [] := by
  rcases resolveProject_trace p st with ht | ⟨s, ht⟩ <;> simp [ht, h]

theorem resolveDataset_filter_nil {q : Op → Bool}
    (h : ∀ s par, q (Op.createDataset s par) = false)
    (pid : Option Int) (p : Option Ref) (st : Srv) :
    ((resolveDataset pid p st).2.2).filter q = [] := by
  rcases resolveDataset_trace pid p st with ht | ⟨s, par, ht⟩ <;> simp [ht, h]

theorem resolveProject_nextId_pos {p : Option Ref} {st : Srv} (h : 0 < st.nextId) :
    0 < (resolveProject p st).2.1.nextId := by
  rcases p with _ | r
  · exact h
  · rcases r with s | n
    · by_cases ht : truthyRef (some (Ref.name s)) = true
      · simp only [resolveProject, ht, if_true, set_or_create_project]
        omega
      · simpa [resolveProject, ht] using h
    · by_cases ht : truthyRef (some (Ref.rid n)) = true
      · simpa [resolveProject, ht, set_or_create_project] using h
      · simpa [resolveProject, ht] using h

theorem resolveDataset_resolved {pid : Option Int} {p : Option Ref} {st : Srv}
    (ht : truthyRef p = true) (hst : 0 < st.nextId) :
    ∃ d, (resolveDataset pid p st).1 = some d ∧ d ≠ 0 := by
  rcases p with _ | r
  · simp [truthyRef] at ht
  · rcases r with s | n
    · refine ⟨st.nextId, by simp [resolveDataset, ht, set_or_create_dataset], by omega⟩
    · refine ⟨n, by simp [resolveDataset, ht, set_or_create_dataset], ?_⟩
      simpa [truthyRef] using ht

theorem resolveDataset_none {pid : Option Int} {p : Option Ref} {st : Srv}
    (ht : truthyRef p = false) : (resolveDataset pid p st).1 = none := by
  rcases p with _ | r
  · rfl
  · simp [resolveDataset, ht]

/-- C3 counterexample: resolving a Dataset name with the supplied parent
project id `0` issues a creation call that does not carry that parent. -/
theorem C3_counterexample :
    (set_or_create_dataset (some 0) (.name "D") ⟨7⟩).2.2 = [Op.createDataset "D" none] ∧
    Op.createDataset "D" none ≠ Op.createDataset "D" (some 0) :=
  ⟨rfl, by decide⟩

/-- C3 (amended): an integer reference is returned unchanged with no creation
call; a name reference issues exactly one creation call returning the fresh
server id, and a repeated call with the same name issues a fresh creation
call with a different id; a Dataset name with a nonzero parent project id
carries that parent, while a missing parent creates it unparented. -/
theorem C3_resolver_contract (st : Srv) (s : String) (p n : Int) (hp : p ≠ 0) :
    set_or_create_project (.rid n) st = (n, st, []) ∧
    set_or_create_dataset (some p) (.rid n) st = (n, st, []) ∧
    set_or_create_screen (.rid n) st = (n, st, []) ∧
    set_or_create_project (.name s) st =
      (st.nextId, ⟨st.nextId + 1⟩, [Op.createProject s]) ∧
    (set_or_create_project (.name s) (set_or_create_project (.name s) st).2.1).2.2 =
      [Op.createProject s] ∧
    (set_or_create_project (.name s) (set_or_create_project (.name s) st).2.1).1 ≠
      (set_or_create_project (.name s) st).1 ∧
    set_or_create_screen (.name s) st =
      (st.nextId, ⟨st.nextId + 1⟩, [Op.createScreen s]) ∧
    set_or_create_dataset (some p) (.name s) st =
      (st.nextId, ⟨st.nextId + 1⟩, [Op.createDataset s (some p)]) ∧
    set_or_create_dataset none (.name s) st =
      (st.nextId, ⟨st.nextId + 1⟩, [Op.createDataset s none]) := by
  refine ⟨rfl, rfl, rfl, rfl, rfl, ?_, rfl, ?_, rfl⟩
  · simp [set_or_create_project]
  · simp [set_or_create_dataset, pyTruthyOptInt, hp]

/-- C3 witness: the amended resolver contract evaluated at concrete inputs. -/
theorem C3_resolver_contract_witness :
    set_or_create_project (.rid 9) ⟨5⟩ = (9, ⟨5⟩, []) ∧
    set_or_create_dataset (some 3) (.name "D") ⟨5⟩ =
      (5, ⟨6⟩, [Op.createDataset "D" (some 3)]) := by
  have h := C3_resolver_contract ⟨5⟩ "D" 3 9 (by decide)
  exact ⟨h.1, h.2.2.2.2.2.2.2.1⟩

/-- C10: truthiness, not presence, separates supplied from absent
references: `dataset=0` with a project raises the project-without-dataset
error; a dataset name resolved against a server whose next id is `0` yields
dataset id `0` and no image ever gets linked; a parent project id `0` makes
a name-based dataset get created unparented. -/
theorem C10_truthiness_semantics :
    importerInit (some (.name "P1")) (some (.rid 0)) none none none =
      .error (.valueError "Cannot define project but no dataset!") ∧
    (organize_images ⟨none, some (.name "D"), none, none, none, some [3, 4], none⟩
        [3, 4] ⟨0⟩).2.2 = [Op.queryOrphans, Op.createDataset "D" none] ∧
    (((organize_images ⟨none, some (.name "D"), none, none, none, some [3, 4], none⟩
        [3, 4] ⟨0⟩).2.2).filter isLinkImage) = [] ∧
    (set_or_create_dataset (some 0) (.name "D") ⟨5⟩).2.2 =
      [Op.createDataset "D" none] :=
  ⟨rfl, rfl, rfl, rfl⟩

/-- C6: a truthy project reference with a falsy dataset reference makes the
whole orchestration fail at construction with the value error, before the
submission or any other remote call. -/
theorem C6_project_without_dataset (project dataset screen : Option Ref)
    (ann : Option (List (PyVal × PyVal))) (ns : Option String)
    (doc : Option ResultDoc) (orphans : List Int) (st : Srv)
    (hp : truthyRef project = true) (hd : truthyRef dataset = false) :
    ezimport_run project dataset screen ann ns doc orphans st =
      (.error (.valueError "Cannot define project but no dataset!"), st, [],
       Pipeline.noRun) := by
  simp [ezimport_run, importerInit, hp, hd]

/-- C6 witness: `project="P1"` with `dataset=None` at concrete inputs. -/
theorem C6_project_without_dataset_witness :
    ezimport_run (some (.name "P1")) none none none none
        (some ⟨[101], []⟩) [101] ⟨1⟩ =
      (.error (.valueError "Cannot define project but no dataset!"), ⟨1⟩, [],
       Pipeline.noRun) :=
  C6_project_without_dataset (some (.name "P1")) none none none none
    (some ⟨[101], []⟩) [101] ⟨1⟩ rfl rfl

/-- C5: the batch-annotation routine rejects an empty id list with a value
error, a non-list non-integer `object_ids` with a type error and a non-dict
`kv_dict` with a type error, in each case making no remote call; a bare
integer behaves exactly as its singleton list. -/
theorem C5_validation (kv : KvArg) (nsv ot : String) (st : Srv) (n : Int)
    (xs : List Int) (hxs : xs ≠ []) :
    multi_post_map_ann ot (.ofList []) kv nsv st =
      (.error (.valueError "object_ids must contain one or more items"), st, []) ∧
    multi_post_map_ann ot .otherType kv nsv st =
      (.error (.typeError "object_ids must be list or integer"), st, []) ∧
    multi_post_map_ann ot (.ofInt n) kv nsv st =
      multi_post_map_ann ot (.ofList [n]) kv nsv st ∧
    multi_post_map_ann ot (.ofList xs) .otherType nsv st =
      (.error (.typeError "Annotation must be of type dict"), st, []) := by
    refine ⟨?_, rfl, rfl, ?_⟩
    · cases kv <;> rfl
    · cases xs with
      | nil => exact absurd rfl hxs
      | cons a l => rfl

/-- C5 witness: the validation contract at concrete inputs. -/
theorem C5_validation_witness :
    multi_post_map_ann "Image" (.ofList []) (.ofDict []) "ns1" ⟨1⟩ =
      (.error (.valueError "object_ids must contain one or more items"), ⟨1⟩, []) ∧
    multi_post_map_ann "Image" (.ofList [23]) .otherType "ns1" ⟨1⟩ =
      (.error (.typeError "Annotation must be of type dict"), ⟨1⟩, []) := by
  have h := C5_validation (.ofDict []) "ns1" "Image" ⟨1⟩ 23 [23] (by decide)
  exact ⟨h.1, (C5_validation .otherType "ns1" "Image" ⟨1⟩ 23 [23] (by decide)).2.2.2⟩

/-- C7: a falsy image-id list makes `organize_images` return `false` with no
remote call at all, and any truthy (non-empty) image-id list makes it return
`true`, however many ids were skipped. -/
theorem C7_empty_short_circuit (imp : Importer) (orphans : List Int) (st : Srv) :
    (truthyIds imp.image_ids = false →
       (organize_images imp orphans st).1 = false ∧
       ((organize_images imp orphans st).2.2.filter Op.isRemote) = []) ∧
    (truthyIds imp.image_ids = true → (organize_images imp orphans st).1 = true) := by
  constructor
  · intro h
    simp [organize_images, h, Op.isRemote]
  · intro h
    simp [organize_images, h]

/-- C7 witness: the short-circuit at an absent id list and the `true` return
at a non-empty id list none of whose ids could be linked. -/
theorem C7_empty_short_circuit_witness :
    (organize_images ⟨none, none, none, none, none, none, none⟩ [] ⟨1⟩).1 = false ∧
    ((organize_images ⟨none, none, none, none, none, none, none⟩ [] ⟨1⟩).2.2.filter
       Op.isRemote) = [] ∧
    (organize_images ⟨none, none, none, none, none, some [8], none⟩ [] ⟨1⟩).1 = true := by
  have h1 := (C7_empty_short_circuit ⟨none, none, none, none, none, none, none⟩ [] ⟨1⟩).1 rfl
  have h2 := (C7_empty_short_circuit ⟨none, none, none, none, none, some [8], none⟩ [] ⟨1⟩).2 rfl
  exact ⟨h1.1, h1.2, h2⟩

theorem flatten_kv_eq (entries : List (PyVal × PyVal)) :
    flatten_kv entries =
      entries.flatMap fun e => (valSeq e.2).map fun x => (pyStr e.1, pyStr x) := by
  induction entries with
  | nil => rfl
  | cons e rest ih =>
    rcases e with ⟨k, v⟩
    cases v <;> simp [flatten_kv, valSeq, ih]

theorem flatten_kv_length (entries : List (PyVal × PyVal)) :
    (flatten_kv entries).length = kvTotalLen entries := by
  induction entries with
  | nil => rfl
  | cons e rest ih =>
    rcases e with ⟨k, v⟩
    cases v <;> simp [flatten_kv, kvTotalLen, valLen, ih] <;>
      simp [kvTotalLen] at ih <;> omega

theorem linkAnn_map_filter_save (ot : String) (a : Int) (ids : List Int) :
    ((ids.map fun o => Op.linkAnn ot a o).filter isSaveAnn) = [] := by
  induction ids with
  | nil => rfl
  | cons i rest ih => simp [isSaveAnn, ih]

/-- C4: flattening a dict yields, in mapping order, one string pair per
scalar value and one pair per element of each list value (same key, element
order kept), so the pair count is the sum of the value lengths with scalars
counting as one; and one accepted batch-annotation call persists exactly one
record, first, and links it to every target id. -/
theorem C4_flatten_single_record (entries : List (PyVal × PyVal)) (ot nsv : String)
    (ids : List Int) (st : Srv) (hne : ids ≠ []) :
    (flatten_kv entries).length = kvTotalLen entries ∧
    flatten_kv entries =
      (entries.flatMap fun e => (valSeq e.2).map fun x => (pyStr e.1, pyStr x)) ∧
    (multi_post_map_ann ot (.ofList ids) (.ofDict entries) nsv st).1 = .ok st.nextId ∧
    (((multi_post_map_ann ot (.ofList ids) (.ofDict entries) nsv st).2.2).filter
        isSaveAnn).length = 1 ∧
    ((multi_post_map_ann ot (.ofList ids) (.ofDict entries) nsv st).2.2).head? =
      some (Op.saveAnn nsv (flatten_kv entries)) ∧
    ∀ o ∈ ids, Op.linkAnn ot st.nextId o ∈
      (multi_post_map_ann ot (.ofList ids) (.ofDict entries) nsv st).2.2 := by
  have hlen : ids.length ≠ 0 := by
    cases ids with
    | nil => exact absurd rfl hne
    | cons a l => simp
  refine ⟨flatten_kv_length entries, flatten_kv_eq entries, ?_, ?_, ?_, ?_⟩
  · simp [multi_post_map_ann, multiPostChecked, hlen]
  · simp [multi_post_map_ann, multiPostChecked, hlen, isSaveAnn,
      linkAnn_map_filter_save]
  · simp [multi_post_map_ann, multiPostChecked, hlen]
  · intro o ho
    simp [multi_post_map_ann, multiPostChecked, hlen, List.mem_map]
    exact ho

/-- C4 witness: the mapping of the module docstring example, with a
two-element list value, against a two-image batch. -/
theorem C4_flatten_single_record_witness :
    (flatten_kv [(.vStr "stain", .vList [.vStr "DAPI", .vStr "GFP"])]).length =
      kvTotalLen [(.vStr "stain", .vList [.vStr "DAPI", .vStr "GFP"])] ∧
    (((multi_post_map_ann "Image" (.ofList [23, 56])
        (.ofDict [(.vStr "stain", .vList [.vStr "DAPI", .vStr "GFP"])]) "ns1"
        ⟨100⟩).2.2).filter isSaveAnn).length = 1 ∧
    Op.linkAnn "Image" 100 23 ∈
      (multi_post_map_ann "Image" (.ofList [23, 56])
        (.ofDict [(.vStr "stain", .vList [.vStr "DAPI", .vStr "GFP"])]) "ns1"
        ⟨100⟩).2.2 := by
  have h := C4_flatten_single_record
    [(.vStr "stain", .vList [.vStr "DAPI", .vStr "GFP"])] "Image" "ns1"
    [23, 56] ⟨100⟩ (by decide)
  exact ⟨h.1, h.2.2.2.1, h.2.2.2.2.2 23 (by decide)⟩

/-- C9: no annotation record is ever persisted unless both the key-value
dict and the namespace are truthy; with either falsy, both annotation steps
are warning-only no-ops that return no id and raise no error. -/
theorem C9_annotation_requires_both (imp : Importer) (st : Srv) :
    ((truthyAnn imp.ann = false ∨ truthyNs imp.ns = false) →
       annotate_images imp st =
         (.ok none, st,
          [Op.warn "Missing annotation or namespace, skipping annotations"]) ∧
       annotate_plates imp st =
         (.ok none, st,
          [Op.warn "Missing annotation or namespace, skipping annotations"]) ∧
       ((annotate_images imp st).2.2.filter Op.isRemote) = [] ∧
       ((annotate_plates imp st).2.2.filter Op.isRemote) = []) ∧
    (∀ (nsv : String) (pairs : List (String × String)),
       Op.saveAnn nsv pairs ∈ (annotate_images imp st).2.2 →
       truthyAnn imp.ann = true ∧ truthyNs imp.ns = true) ∧
    (∀ (nsv : String) (pairs : List (String × String)),
       Op.saveAnn nsv pairs ∈ (annotate_plates imp st).2.2 →
       truthyAnn imp.ann = true ∧ truthyNs imp.ns = true) := by
  refine ⟨?_, ?_, ?_⟩
  · intro h
    have hg : (!truthyAnn imp.ann || !truthyNs imp.ns) = true := by
      rcases h with h | h <;> simp [h]
    simp [annotate_images, annotate_plates, hg, Op.isRemote]
  · intro nsv pairs hmem
    by_cases ha : truthyAnn imp.ann = true
    · by_cases hn : truthyNs imp.ns = true
      · exact ⟨ha, hn⟩
      · have hn2 : truthyNs imp.ns = false := by
          cases hv : truthyNs imp.ns
          · rfl
          · exact absurd hv hn
        simp [annotate_images, hn2] at hmem
    · have ha2 : truthyAnn imp.ann = false := by
        cases hv : truthyAnn imp.ann
        · rfl
        · exact absurd hv ha
      simp [annotate_images, ha2] at hmem
  · intro nsv pairs hmem
    by_cases ha : truthyAnn imp.ann = true
    · by_cases hn : truthyNs imp.ns = true
      · exact ⟨ha, hn⟩
      · have hn2 : truthyNs imp.ns = false := by
          cases hv : truthyNs imp.ns
          · rfl
          · exact absurd hv hn
        simp [annotate_plates, hn2] at hmem
    · have ha2 : truthyAnn imp.ann = false := by
        cases hv : truthyAnn imp.ann
        · rfl
        · exact absurd hv ha
      simp [annotate_plates, ha2] at hmem

/-- C9 witness: annotation with a dict but no namespace is a warning-only
no-op on both paths. -/
theorem C9_annotation_requires_both_witness :
    annotate_images ⟨none, none, none, some [(.vStr "k", .vStr "v")], none,
        some [7], none⟩ ⟨1⟩ =
      (.ok none, ⟨1⟩,
       [Op.warn "Missing annotation or namespace, skipping annotations"]) ∧
    annotate_plates ⟨none, none, none, some [(.vStr "k", .vStr "v")], none,
        some [7], none⟩ ⟨1⟩ =
      (.ok none, ⟨1⟩,
       [Op.warn "Missing annotation or namespace, skipping annotations"]) := by
  have h := (C9_annotation_requires_both
    ⟨none, none, none, some [(.vStr "k", .vStr "v")], none, some [7], none⟩
    ⟨1⟩).1 (Or.inr rfl)
  exact ⟨h.1, h.2.1⟩

/-- C1 counterexample: a successful submission whose parsed result has a
non-empty plate-id sequence (and no screen reference supplied) runs the
image pipeline, not the plate pipeline. -/
theorem C1_counterexample :
    (ezimport_run none none none none none (some ⟨[], [55]⟩) [] ⟨1⟩).1 =
      .ok (some []) ∧
    (⟨[], [55]⟩ : ResultDoc).plateIds ≠ [] ∧
    (ezimport_run none none none none none (some ⟨[], [55]⟩) [] ⟨1⟩).2.2.2 =
      Pipeline.images ∧
    Pipeline.images ≠ Pipeline.plates :=
  ⟨rfl, by decide, rfl, by decide⟩

/-- C1 (amended): for every run whose construction and submission succeed,
the pipeline choice is made by the truthiness of the screen reference — the
plate pipeline runs iff the screen reference is truthy — and exactly one of
the two pipelines runs. -/
theorem C1_branch_on_screen_ref (project dataset screen : Option Ref)
    (ann : Option (List (PyVal × PyVal))) (ns : Option String) (d : ResultDoc)
    (orphans : List Int) (st : Srv)
    (hinit : (truthyRef project && !truthyRef dataset) = false) :
    ((ezimport_run project dataset screen ann ns (some d) orphans st).2.2.2 =
        Pipeline.plates ↔ truthyRef screen = true) ∧
    ((ezimport_run project dataset screen ann ns (some d) orphans st).2.2.2 =
        Pipeline.plates ∨
     (ezimport_run project dataset screen ann ns (some d) orphans st).2.2.2 =
        Pipeline.images) ∧
    ¬((ezimport_run project dataset screen ann ns (some d) orphans st).2.2.2 =
        Pipeline.plates ∧
      (ezimport_run project dataset screen ann ns (some d) orphans st).2.2.2 =
        Pipeline.images) := by
  by_cases hs : truthyRef screen = true <;>
    simp [ezimport_run, importerInit, hinit, hs]

/-- C1 witness: a truthy screen id routes a successful run into the plate
pipeline. -/
theorem C1_branch_on_screen_ref_witness :
    (ezimport_run none none (some (.rid 9)) none none (some ⟨[], [55]⟩) []
        ⟨1⟩).2.2.2 = Pipeline.plates :=
  (C1_branch_on_screen_ref none none (some (.rid 9)) none none ⟨[], [55]⟩ [] ⟨1⟩
    rfl).1.mpr rfl

/-- C2 counterexample: organizing two plates against a screen given by name
issues two screen-creation calls, not one as the claim states. -/
theorem C2_counterexample :
    (((organize_plates ⟨none, none, some (.name "S"), none, none, none,
         some [1, 2]⟩ ⟨10⟩).2.2).filter isCreateScreen).length = 2 ∧
    (2 : Nat) ≠ 1 := by decide

theorem organize_images_trace (imp : Importer) (orphans : List Int) (st : Srv)
    (h : truthyIds imp.image_ids = true) :
    (organize_images imp orphans st).2.2 =
      Op.queryOrphans ::
        ((resolveProject imp.project st).2.2 ++
         ((resolveDataset (resolveProject imp.project st).1 imp.dataset
             (resolveProject imp.project st).2.1).2.2 ++
          organize_images_loop (imp.image_ids.getD []) orphans
            (resolveDataset (resolveProject imp.project st).1 imp.dataset
               (resolveProject imp.project st).2.1).1)) := by
  simp [organize_images, h]

theorem plate_loop_screen_count (s : String) (hsne : s ≠ "") :
    ∀ (pls : List Int) (st : Srv),
      (((organize_plates_loop pls (some (.name s)) st).2).filter
          isCreateScreen).length = pls.length := by
  intro pls
  induction pls with
  | nil => intro st; rfl
  | cons p rest ih =>
    intro st
    have ht : truthyRef (some (Ref.name s)) = true := by simp [truthyRef, hsne]
    simp [organize_plates_loop, ht, set_or_create_screen, isCreateScreen,
      List.filter_append, ih]

/-- C2 (amended): hierarchy-name resolution is not memoized; in the plate
pipeline the screen reference is resolved once per plate, so organizing `n`
plates against a screen given by (non-empty) name issues exactly `n`
screen-creation calls, while in the image pipeline the project and the
dataset are each resolved at most once per call. -/
theorem C2_resolution_not_memoized (imp : Importer) (pls : List Int) (s : String)
    (st : Srv) (hpl : imp.plate_ids = some pls) (hs : imp.screen = some (.name s))
    (hsne : s ≠ "") (imp2 : Importer) (orphans : List Int) (st2 : Srv) :
    (((organize_plates imp st).2.2).filter isCreateScreen).length = pls.length ∧
    (((organize_images imp2 orphans st2).2.2).filter isCreateProject).length ≤ 1 ∧
    (((organize_images imp2 orphans st2).2.2).filter isCreateDataset).length ≤ 1 := by
  refine ⟨?_, ?_, ?_⟩
  · cases pls with
    | nil => simp [organize_plates, hpl]
    | cons p rest =>
      have hc := plate_loop_screen_count s hsne (p :: rest) st
      simp [organize_plates, hpl, hs]
      exact hc
  · by_cases h : truthyIds imp2.image_ids = true
    · rw [organize_images_trace imp2 orphans st2 h]
      have h2 : ((resolveDataset (resolveProject imp2.project st2).1 imp2.dataset
          (resolveProject imp2.project st2).2.1).2.2).filter isCreateProject = [] :=
        resolveDataset_filter_nil (by intro a b; rfl) _ _ _
      have h3 : (organize_images_loop (imp2.image_ids.getD []) orphans
          (resolveDataset (resolveProject imp2.project st2).1 imp2.dataset
            (resolveProject imp2.project st2).2.1).1).filter isCreateProject = [] :=
        imgloop_filter_nil _ (by intro a b; rfl) (by intro a; rfl) _ _ _
      rcases resolveProject_trace imp2.project st2 with ht | ⟨sp, ht⟩ <;>
        simp [ht, h2, h3, isCreateProject, List.filter_append, List.filter_cons]
    · have h2 : truthyIds imp2.image_ids = false := by
        cases hv : truthyIds imp2.image_ids
        · rfl
        · exact absurd hv h
      simp [organize_images, h2, isCreateProject]
  · by_cases h : truthyIds imp2.image_ids = true
    · rw [organize_images_trace imp2 orphans st2 h]
      have h1 : ((resolveProject imp2.project st2).2.2).filter isCreateDataset = [] :=
        resolveProject_filter_nil (by intro a; rfl) _ _
      have h3 : (organize_images_loop (imp2.image_ids.getD []) orphans
          (resolveDataset (resolveProject imp2.project st2).1 imp2.dataset
            (resolveProject imp2.project st2).2.1).1).filter isCreateDataset = [] :=
        imgloop_filter_nil _ (by intro a b; rfl) (by intro a; rfl) _ _ _
      rcases resolveDataset_trace (resolveProject imp2.project st2).1 imp2.dataset
          (resolveProject imp2.project st2).2.1 with ht | ⟨sd, par, ht⟩ <;>
        simp [ht, h1, h3, isCreateDataset, List.filter_append, List.filter_cons]
    · have h2 : truthyIds imp2.image_ids = false := by
        cases hv : truthyIds imp2.image_ids
        · rfl
        · exact absurd hv h
      simp [organize_images, h2, isCreateDataset]

/-- C2 witness: two plates against a named screen give two creation calls;
an image run with a named project and dataset gives one creation call each. -/
theorem C2_resolution_not_memoized_witness :
    (((organize_plates ⟨none, none, some (.name "S"), none, none, none,
         some [1, 2]⟩ ⟨10⟩).2.2).filter isCreateScreen).length = 2 ∧
    (((organize_images ⟨some (.name "P"), some (.name "D"), none, none, none,
         some [3, 4], none⟩ [3, 4] ⟨1⟩).2.2).filter isCreateProject).length ≤ 1 ∧
    (((organize_images ⟨some (.name "P"), some (.name "D"), none, none, none,
         some [3, 4], none⟩ [3, 4] ⟨1⟩).2.2).filter isCreateDataset).length ≤ 1 :=
  C2_resolution_not_memoized
    ⟨none, none, some (.name "S"), none, none, none, some [1, 2]⟩ [1, 2] "S"
    ⟨10⟩ rfl rfl (by decide)
    ⟨some (.name "P"), some (.name "D"), none, none, none, some [3, 4], none⟩
    [3, 4] ⟨1⟩

/-- C8: with a non-empty image-id list (and a server assigning positive
fresh ids), `organize_images` queries the orphan set exactly once, up front;
a non-orphan id is warned about and never linked; when the dataset reference
is truthy every orphan id is linked to the single resolved nonzero dataset
id, when it is falsy no link happens at all, and when no id is an orphan no
link happens either. -/
theorem C8_orphan_gate (imp : Importer) (ids orphans : List Int) (st : Srv)
    (hids : imp.image_ids = some ids) (hne : ids ≠ []) (hst : 0 < st.nextId) :
    ((organize_images imp orphans st).2.2.filter isQuery).length = 1 ∧
    (organize_images imp orphans st).2.2.head? = some Op.queryOrphans ∧
    (∀ i ∈ ids, i ∉ orphans →
       (∀ e : Int, Op.linkImage i e ∉ (organize_images imp orphans st).2.2) ∧
       Op.warn ("Image:" ++ toString i ++ " not an orphan") ∈
         (organize_images imp orphans st).2.2) ∧
    (truthyRef imp.dataset = true →
       ∃ d : Int, d ≠ 0 ∧ ∀ i ∈ ids, i ∈ orphans →
         Op.linkImage i d ∈ (organize_images imp orphans st).2.2) ∧
    (truthyRef imp.dataset = false →
       ∀ (i e : Int), Op.linkImage i e ∉ (organize_images imp orphans st).2.2) ∧
    ((∀ i ∈ ids, i ∉ orphans) →
       ∀ (i e : Int), Op.linkImage i e ∉ (organize_images imp orphans st).2.2) := by
  have htr : truthyIds imp.image_ids = true := by
    rw [hids]
    cases ids with
    | nil => exact absurd rfl hne
    | cons a l => rfl
  have hget : imp.image_ids.getD [] = ids := by rw [hids]; rfl
  rw [organize_images_trace imp orphans st htr, hget]
  have hPl : ∀ (i e : Int),
      Op.linkImage i e ∉ (resolveProject imp.project st).2.2 :=
    fun i e =>
      @not_mem_of_filter_nil isLinkImage _
        (resolveProject_filter_nil (fun _ => rfl) _ _) _ rfl
  have hDl : ∀ (i e : Int),
      Op.linkImage i e ∉
        (resolveDataset (resolveProject imp.project st).1 imp.dataset
           (resolveProject imp.project st).2.1).2.2 :=
    fun i e =>
      @not_mem_of_filter_nil isLinkImage _
        (resolveDataset_filter_nil (fun _ _ => rfl) _ _ _) _ rfl
  have hmemT : ∀ (i e : Int),
      Op.linkImage i e ∈
        (Op.queryOrphans ::
          ((resolveProject imp.project st).2.2 ++
           ((resolveDataset (resolveProject imp.project st).1 imp.dataset
               (resolveProject imp.project st).2.1).2.2 ++
            organize_images_loop ids orphans
              (resolveDataset (resolveProject imp.project st).1 imp.dataset
                 (resolveProject imp.project st).2.1).1))) →
      Op.linkImage i e ∈
        organize_images_loop ids orphans
          (resolveDataset (resolveProject imp.project st).1 imp.dataset
             (resolveProject imp.project st).2.1).1 := by
    intro i e hmem
    rcases List.mem_cons.mp hmem with heq | hmem2
    · simp at heq
    rcases List.mem_append.mp hmem2 with hP | hmem3
    · exact absurd hP (hPl i e)
    rcases List.mem_append.mp hmem3 with hD | hL
    · exact absurd hD (hDl i e)
    · exact hL
  refine ⟨?_, rfl, ?_, ?_, ?_, ?_⟩
  · have hPq : ((resolveProject imp.project st).2.2).filter isQuery = [] :=
      resolveProject_filter_nil (fun _ => rfl) _ _
    have hDq : ((resolveDataset (resolveProject imp.project st).1 imp.dataset
        (resolveProject imp.project st).2.1).2.2).filter isQuery = [] :=
      resolveDataset_filter_nil (fun _ _ => rfl) _ _ _
    have hLq : (organize_images_loop ids orphans
        (resolveDataset (resolveProject imp.project st).1 imp.dataset
          (resolveProject imp.project st).2.1).1).filter isQuery = [] :=
      imgloop_filter_nil _ (fun _ _ => rfl) (fun _ => rfl) _ _ _
    simp [List.filter_append, List.filter_cons, hPq, hDq, hLq, isQuery]
  · intro i hi ho
    constructor
    · intro e hmem
      rcases imgloop_link_mem (hmemT i e hmem) with ⟨_, h2, _, _⟩
      exact ho h2
    · have hw := imgloop_warn_of_nonorphan
        (d := (resolveDataset (resolveProject imp.project st).1 imp.dataset
          (resolveProject imp.project st).2.1).1) hi ho
      exact List.mem_cons_of_mem _
        (List.mem_append_right _ (List.mem_append_right _ hw))
  · intro ht
    have hpos : 0 < (resolveProject imp.project st).2.1.nextId :=
      resolveProject_nextId_pos hst
    rcases @resolveDataset_resolved (resolveProject imp.project st).1 imp.dataset
      (resolveProject imp.project st).2.1 ht hpos with ⟨d, hd1, hd2⟩
    refine ⟨d, hd2, ?_⟩
    intro i hi ho
    rw [hd1]
    exact List.mem_cons_of_mem _
      (List.mem_append_right _
        (List.mem_append_right _ (imgloop_link_of_orphan hd2 hi ho)))
  · intro ht i e hmem
    have hnone : (resolveDataset (resolveProject imp.project st).1 imp.dataset
        (resolveProject imp.project st).2.1).1 = none :=
      resolveDataset_none ht
    rcases imgloop_link_mem (hmemT i e hmem) with ⟨_, _, h3, _⟩
    rw [hnone] at h3
    exact Option.noConfusion h3
  · intro hall i e hmem
    rcases imgloop_link_mem (hmemT i e hmem) with ⟨h1, h2, _, _⟩
    exact hall i h1 h2

/-- C8 witness: three imported images of which two are orphans, dataset
given by id `7`: one orphan query, the non-orphan id `9` warned about and
never linked. -/
theorem C8_orphan_gate_witness :
    ((organize_images ⟨none, some (.rid 7), none, none, none, some [3, 4, 9],
        none⟩ [3, 4] ⟨1⟩).2.2.filter isQuery).length = 1 ∧
    (organize_images ⟨none, some (.rid 7), none, none, none, some [3, 4, 9],
        none⟩ [3, 4] ⟨1⟩).2.2.head? = some Op.queryOrphans ∧
    Op.warn ("Image:" ++ toString (9 : Int) ++ " not an orphan") ∈
      (organize_images ⟨none, some (.rid 7), none, none, none, some [3, 4, 9],
        none⟩ [3, 4] ⟨1⟩).2.2 ∧
    Op.linkImage 9 7 ∉
      (organize_images ⟨none, some (.rid 7), none, none, none, some [3, 4, 9],
        none⟩ [3, 4] ⟨1⟩).2.2 := by
  have h := C8_orphan_gate
    ⟨none, some (.rid 7), none, none, none, some [3, 4, 9], none⟩
    [3, 4, 9] [3, 4] ⟨1⟩ rfl (by decide) (by decide)
  refine ⟨h.1, h.2.1, ?_, ?_⟩
  · exact (h.2.2.1 9 (by decide) (by decide)).2
  · exact (h.2.2.1 9 (by decide) (by decide)).1 7

end Ezomero
